import Mathlib

/-!
Verification development for the GoAWS resilient persistent-connection layer
and the paginated SimpleDB Select executor.

Shallow embedding of:
  * `ReusableConn` and its methods (src/dialer.go) — the Resilient Socket;
  * `Conn` and its `dial`/`Request` methods (src/unnamed/part_000) — the
    Request Pipe layered over the Resilient Socket via `http.ClientConn`;
  * `Domain.Select` (src/sdb/domain.go) — the paginated query executor.

Modelling conventions:
  * External collaborators (the caller-supplied `Dialer`, the raw `net.Conn`
    operations, the HTTP framing of `http.ClientConn`, the XML decoder and
    the request signer) are oracles gathered in environment structures; the
    embedded code consults them exactly where the Go code calls out to them.
  * The Go `Dialer` is a stateful closure; it is modelled as a function of the
    number of invocations made so far, with a ghost counter `dialCount`
    threaded through the connection state to index it (the counter also makes
    factory-invocation-count properties stateable, cf. spec §8).
  * `time.Time` is modelled as `Nat`; the Go zero time is `0` (`IsZero`).
  * The mutex of `ReusableConn` serialises all public operations; the model
    is the single-threaded semantics of the serialised operations, so the
    lock itself is elided.  Buffer contents of `Read`/`Write` are irrelevant
    to every property below and are abstracted into the oracle outcomes.
-/

/-- Errors surfaced by the modelled operations.  Which constructor an oracle
returns is irrelevant to the theorems; the constructors just give concrete
environments something to fail with. -/
inductive Err where
  | dialFailed
  | notConnected
  | readFailed
  | writeFailed
  | closeFailed
  | deadlineFailed
  | signFailed
  | httpFailed
  | decodeFailed
  | code (n : Nat)
deriving Repr, DecidableEq

/-- Go `time.Time`, with `0` playing the role of the zero time (`IsZero`). -/
abbrev Time := Nat

/-- A raw socket handle produced by the Dialer (Go `net.Conn`).  `id`
identifies the socket; `rd`/`wd` record the deadline values that have been
applied to this particular socket via `SetReadDeadline`/`SetWriteDeadline`
(`none` = no deadline ever applied). -/
structure NetConn where
  id : Nat
  rd : Option Time := none
  wd : Option Time := none
deriving Repr, DecidableEq

/-- An opaque decoded `http.Response` as produced by `http.ClientConn.Read`;
its contents are irrelevant to the connection-layer properties. -/
abbrev HResp := Nat

/-- The environment: outcomes of every external call the connection layer
makes.  Raw-socket operations are keyed by the socket `id`; the dialer is
keyed by the number of dialer invocations already made. -/
structure Env where
  /-- Result of the k-th invocation of the caller-supplied `Dialer`
  (`none`-conn failures follow the Go convention of a nil conn with error). -/
  dialer : Nat → Except Err NetConn
  /-- Outcome of `conn.SetReadDeadline t` on raw socket `id`. -/
  setRD : Nat → Time → Option Err
  /-- Outcome of `conn.SetWriteDeadline t` on raw socket `id`. -/
  setWD : Nat → Time → Option Err
  /-- Outcome `(n, err)` of `conn.Read` on raw socket `id`. -/
  readR : Nat → Nat × Option Err
  /-- Outcome `(n, err)` of `conn.Write` on raw socket `id`. -/
  writeR : Nat → Nat × Option Err
  /-- Outcome of `conn.Close` on raw socket `id`. -/
  closeE : Nat → Option Err
  /-- `conn.RemoteAddr` of raw socket `id` (an address, or a nil `net.Addr`). -/
  raddr : Nat → Option Nat
  /-- Outcome of the `http.ClientConn` response parse of the bytes read from
  raw socket `id` (external HTTP framing). -/
  parseResp : Nat → Except Err HResp

/-- The `ReusableConn` struct of src/dialer.go: an optional live socket plus
the recorded read/write deadlines.  `dialCount` is the ghost invocation
counter for the dialer closure (see the header). -/
structure ReusableConn where
  conn : Option NetConn
  readDeadline : Time
  writeDeadline : Time
  dialCount : Nat
deriving Repr, DecidableEq

/-- `NewReusableConnection`: fresh state, no socket, zero deadlines. -/
def NewReusableConnection : ReusableConn :=
  { conn := none, readDeadline := 0, writeDeadline := 0, dialCount := 0 }

/-- Body of `setReadDeadline` after its (no-op, since a socket is live)
nested `dial()` call: apply the deadline to the live socket and record it in
the session only on success.  The `none` branch cannot be reached from the
embedded call sites (they only call this after a successful dial). -/
def applyRD (env : Env) (s : ReusableConn) (t : Time) : ReusableConn × Option Err :=
  match s.conn with
  | none => (s, some Err.notConnected)
  | some c =>
    match env.setRD c.id t with
    | some e => (s, some e)
    | none => ({ s with conn := some { c with rd := some t }, readDeadline := t }, none)

/-- Body of `setWriteDeadline` after its nested `dial()` call; see `applyRD`. -/
def applyWD (env : Env) (s : ReusableConn) (t : Time) : ReusableConn × Option Err :=
  match s.conn with
  | none => (s, some Err.notConnected)
  | some c =>
    match env.setWD c.id t with
    | some e => (s, some e)
    | none => ({ s with conn := some { c with wd := some t }, writeDeadline := t }, none)

/-- `ReusableConn.dial` (src/dialer.go:57-70): redial if `conn` is nil and
reapply any non-zero recorded deadlines; return nil immediately if a socket
is already live.  The Go code reapplies via the full `setReadDeadline`
(whose own `dial()` is a no-op because the socket was just stored), which is
exactly `applyRD`; see `setReadDeadline_connected` below. -/
def ReusableConn.dial (env : Env) (s : ReusableConn) : ReusableConn × Option Err :=
  match s.conn with
  | some _ => (s, none)
  | none =>
    match env.dialer s.dialCount with
    | .error e => ({ s with dialCount := s.dialCount + 1 }, some e)
    | .ok c =>
      let s1 : ReusableConn :=
        { conn := some c, readDeadline := s.readDeadline,
          writeDeadline := s.writeDeadline, dialCount := s.dialCount + 1 }
      match (if s1.readDeadline = 0 then (s1, none) else applyRD env s1 s1.readDeadline) with
      | (s2, some e) => (s2, some e)
      | (s2, none) =>
        if s2.writeDeadline = 0 then (s2, none) else applyWD env s2 s2.writeDeadline

/-- Public `Dial` (the mutex wrapper around `dial`). -/
def ReusableConn.Dial (env : Env) (s : ReusableConn) : ReusableConn × Option Err :=
  ReusableConn.dial env s

/-- Private `close` (src/dialer.go:72-78): close and clear the live socket if
any; a nil socket is not an error. -/
def ReusableConn.close (env : Env) (s : ReusableConn) : ReusableConn × Option Err :=
  match s.conn with
  | none => (s, none)
  | some c => ({ s with conn := none }, env.closeE c.id)

/-- Public `Close` (the mutex wrapper around `close`). -/
def ReusableConn.Close (env : Env) (s : ReusableConn) : ReusableConn × Option Err :=
  ReusableConn.close env s

/-- Private `read` (src/dialer.go:109-118): dial, delegate to the live
socket, and on failure close (discard) the socket while still returning the
operation's own `(n, err)`; the `close()` error is discarded as in the Go
code.  The inner `none` branch is unreachable after a successful dial. -/
def ReusableConn.read (env : Env) (s : ReusableConn) : ReusableConn × (Nat × Option Err) :=
  match ReusableConn.dial env s with
  | (s1, some e) => (s1, (0, some e))
  | (s1, none) =>
    match s1.conn with
    | none => (s1, (0, some Err.notConnected))
    | some c =>
      match env.readR c.id with
      | (n, some e) => ((ReusableConn.close env s1).1, (n, some e))
      | (n, none) => (s1, (n, none))

/-- Private `write` (src/dialer.go:120-129); mirror image of `read`. -/
def ReusableConn.write (env : Env) (s : ReusableConn) : ReusableConn × (Nat × Option Err) :=
  match ReusableConn.dial env s with
  | (s1, some e) => (s1, (0, some e))
  | (s1, none) =>
    match s1.conn with
    | none => (s1, (0, some Err.notConnected))
    | some c =>
      match env.writeR c.id with
      | (n, some e) => ((ReusableConn.close env s1).1, (n, some e))
      | (n, none) => (s1, (n, none))

/-- Public `Read` (the mutex wrapper around `read`). -/
def ReusableConn.Read (env : Env) (s : ReusableConn) : ReusableConn × (Nat × Option Err) :=
  ReusableConn.read env s

/-- Public `Write` (the mutex wrapper around `write`). -/
def ReusableConn.Write (env : Env) (s : ReusableConn) : ReusableConn × (Nat × Option Err) :=
  ReusableConn.write env s

/-- Private `setReadDeadline` (src/dialer.go:147-156): dial, then apply the
deadline to the live socket, recording it in the session only on success. -/
def ReusableConn.setReadDeadline (env : Env) (s : ReusableConn) (t : Time) :
    ReusableConn × Option Err :=
  match ReusableConn.dial env s with
  | (s1, some e) => (s1, some e)
  | (s1, none) => applyRD env s1 t

/-- Private `setWriteDeadline` (src/dialer.go:158-167). -/
def ReusableConn.setWriteDeadline (env : Env) (s : ReusableConn) (t : Time) :
    ReusableConn × Option Err :=
  match ReusableConn.dial env s with
  | (s1, some e) => (s1, some e)
  | (s1, none) => applyWD env s1 t

/-- Public `SetReadDeadline` (the mutex wrapper). -/
def ReusableConn.SetReadDeadline (env : Env) (s : ReusableConn) (t : Time) :
    ReusableConn × Option Err :=
  ReusableConn.setReadDeadline env s t

/-- Public `SetWriteDeadline` (the mutex wrapper). -/
def ReusableConn.SetWriteDeadline (env : Env) (s : ReusableConn) (t : Time) :
    ReusableConn × Option Err :=
  ReusableConn.setWriteDeadline env s t

/-- Public `SetDeadline` (src/dialer.go:186-192): read deadline then, on
success, write deadline. -/
def ReusableConn.SetDeadline (env : Env) (s : ReusableConn) (t : Time) :
    ReusableConn × Option Err :=
  match ReusableConn.SetReadDeadline env s t with
  | (s1, some e) => (s1, some e)
  | (s1, none) => ReusableConn.SetWriteDeadline env s1 t

/-- `RemoteAddr` (src/dialer.go:90-97): the live socket's remote address, or
the nil address when no socket is live.  Reads no other state and never
dials, hence modelled as a pure observation. -/
def ReusableConn.RemoteAddr (env : Env) (s : ReusableConn) : Option Nat :=
  match s.conn with
  | none => none
  | some c => env.raddr c.id

/-- `LocalAddr` (src/dialer.go:100-107).  The source's body also calls
`self.conn.RemoteAddr()` (line 104), not `LocalAddr`. -/
def ReusableConn.LocalAddr (env : Env) (s : ReusableConn) : Option Nat :=
  match s.conn with
  | none => none
  | some c => env.raddr c.id

/-- Sanity: on a live socket, `setReadDeadline`'s nested `dial` is a no-op,
so the method coincides with `applyRD` — justifying `dial`'s use of
`applyRD` for the Go code's nested `setReadDeadline` call. -/
theorem setReadDeadline_connected (env : Env) (s : ReusableConn) (c : NetConn)
    (h : s.conn = some c) (t : Time) :
    ReusableConn.setReadDeadline env s t = applyRD env s t := by
  unfold ReusableConn.setReadDeadline ReusableConn.dial
  rw [h]

/-- Sanity: the write-deadline analogue of `setReadDeadline_connected`. -/
theorem setWriteDeadline_connected (env : Env) (s : ReusableConn) (c : NetConn)
    (h : s.conn = some c) (t : Time) :
    ReusableConn.setWriteDeadline env s t = applyWD env s t := by
  unfold ReusableConn.setWriteDeadline ReusableConn.dial
  rw [h]

/-- `url.Values` restricted to what the embedded code manipulates: an
association list of key/value pairs (`Set` keeps one value per key, as the
map does in Go). -/
abbrev Values := List (String × String)

/-- `url.Values.Set`: replace any existing values for the key. -/
def Values.set (vs : Values) (k v : String) : Values :=
  (k, v) :: vs.filter (fun p => p.1 ≠ k)

/-- `url.Values.Del`: drop all values for the key. -/
def Values.del (vs : Values) (k : String) : Values :=
  vs.filter (fun p => p.1 ≠ k)

/-- `url.Values.Encode`, modelled at its interface: serialize the pairs as
`k=v` joined by `&`.  (The library encoder additionally sorts keys and
percent-escapes; both are immaterial to every property below, which treat
the encoded form as opaque.) -/
def Values.encode (vs : Values) : String :=
  String.intercalate "&" (vs.map (fun p => p.1 ++ "=" ++ p.2))

/-- The part of `http.Request` that `Conn.Request` manipulates: the target's
raw query string (`req.URL.RawQuery`) and the auxiliary query-parameter data
(`req.Form`, `nil` = `none`). -/
structure HttpRequest where
  rawQuery : String
  form : Option Values
deriving Repr, DecidableEq

/-- A protocol-layer handle (the pre-Go1 `http.ClientConn`).  In Go it is
bound to the `ReusableConn` it was constructed over; `id` is a ghost tag
(the running count of handles constructed) identifying which construction
produced it.  `re`/`we` are the handle's latched read-side/write-side errors
(the stdlib's `cc.re`/`cc.we` fields): once one is set, the handle fails
fast and never drives the underlying connection again.  A fresh handle has
both latches clear. -/
structure ClientConn where
  id : Nat
  re : Option Err := none
  we : Option Err := none
deriving Repr, DecidableEq

/-- The `Conn` struct of src/unnamed/part_000: the underlying `ReusableConn`
plus an optional protocol handle.  `ccCount` is the ghost count of
`http.NewClientConn` constructions performed, used to tag handles. -/
structure Conn where
  uc : ReusableConn
  c : Option ClientConn
  ccCount : Nat
deriving Repr, DecidableEq

/-- `NewConn`: fresh `ReusableConn`, no protocol handle. -/
def NewConn : Conn :=
  { uc := NewReusableConnection, c := none, ccCount := 0 }

/-- `Conn.dial` (src/unnamed/part_000:21-30): only when no protocol handle is
bound, establish the underlying connection and construct a new
`http.ClientConn` over it. -/
def Conn.dial (env : Env) (s : Conn) : Conn × Option Err :=
  match s.c with
  | some _ => (s, none)
  | none =>
    match ReusableConn.Dial env s.uc with
    | (uc1, some e) => ({ s with uc := uc1 }, some e)
    | (uc1, none) =>
      ({ uc := uc1, c := some { id := s.ccCount }, ccCount := s.ccCount + 1 }, none)

/-- The pre-Go1 `http.ClientConn.Write` (external stdlib, http/persist.go),
modelled at its interface.  It first consults the handle's latches: a
latched read-side error (`re` — "no point sending if read side closed or
broken") and then a latched write-side error (`we`) each make it fail fast
with that stored error, WITHOUT touching the underlying connection.
Otherwise it frames the request and writes the bytes through the underlying
connection (the `ReusableConn` the handle was constructed over), so the
byte-level outcome is the underlying `Write`'s outcome (the request's bytes
themselves are opaque); a write failure is latched into `we`.  The stdlib's
`cc.c == nil` check is elided: the embedded code never calls the handle's
`Close`/`Hijack`, so that field is never nil once the handle exists. -/
def ClientConn.Write (env : Env) (uc : ReusableConn) (cc : ClientConn) (_req : HttpRequest) :
    ReusableConn × ClientConn × Option Err :=
  match cc.re with
  | some e => (uc, cc, some e)
  | none =>
    match cc.we with
    | some e => (uc, cc, some e)
    | none =>
      match ReusableConn.Write env uc with
      | (uc1, (_, some e)) => (uc1, { cc with we := some e }, some e)
      | (uc1, (_, none)) => (uc1, cc, none)

/-- The pre-Go1 `http.ClientConn.Read` (external stdlib, http/persist.go),
modelled at its interface.  A latched read-side error (`re`) makes it fail
fast with that stored error, WITHOUT touching the underlying connection.
Otherwise it reads response bytes from the underlying connection and parses
them (the parse outcome is the environment's verdict for the socket that
served the read); both a read failure and a parse failure are latched into
`re`.  The stdlib's additional `ErrPersistEOF` latch for a response that
demands connection close is behind the opaque parse oracle and not
exercised by any property here.  The inner `none` branch is unreachable (a
successful read leaves the socket live). -/
def ClientConn.Read (env : Env) (uc : ReusableConn) (cc : ClientConn) :
    ReusableConn × ClientConn × Except Err HResp :=
  match cc.re with
  | some e => (uc, cc, .error e)
  | none =>
    match ReusableConn.Read env uc with
    | (uc1, (_, some e)) => (uc1, { cc with re := some e }, .error e)
    | (uc1, (_, none)) =>
      match uc1.conn with
      | none => (uc1, cc, .error Err.notConnected)
      | some c =>
        match env.parseResp c.id with
        | .error e => (uc1, { cc with re := some e }, .error e)
        | .ok r => (uc1, cc, .ok r)

/-- `Conn.Request` (src/unnamed/part_000:32-51): dial; if the request carries
form data, merge its encoding into the target's query string (separated by
`&` iff a query string is already present) and clear the form; then write
the request and read one response through the protocol handle, whose latch
state the Go code mutates in place (here: threaded back into `c`).  The
returned `Request` is the final value of the request object, which the Go
code mutates in place through the caller's pointer.  The inner `c = none`
branch is unreachable after a successful `Conn.dial`. -/
def Conn.Request (env : Env) (s : Conn) (req : HttpRequest) :
    Conn × HttpRequest × Except Err HResp :=
  match Conn.dial env s with
  | (s1, some e) => (s1, req, .error e)
  | (s1, none) =>
    let req1 : HttpRequest :=
      match req.form with
      | none => req
      | some vs =>
        { rawQuery :=
            (if req.rawQuery ≠ "" then req.rawQuery ++ "&" else req.rawQuery)
              ++ Values.encode vs,
          form := none }
    match s1.c with
    | none => (s1, req1, .error Err.notConnected)
    | some cc =>
      match ClientConn.Write env s1.uc cc req1 with
      | (uc2, cc2, some e) => ({ s1 with uc := uc2, c := some cc2 }, req1, .error e)
      | (uc2, cc2, none) =>
        match ClientConn.Read env uc2 cc2 with
        | (uc3, cc3, r) => ({ s1 with uc := uc3, c := some cc3 }, req1, r)

/-- A decoded result item (an SDB `Item`); its contents are opaque to the
executor, which only forwards items to the delivery channel. -/
abbrev Item := Nat

/-- The decoded `selectresponse`: a page of result items plus the
continuation cursor (`NextToken`; empty string = no more pages). -/
structure SelectResponse where
  items : List Item
  nextToken : String
deriving Repr, DecidableEq

/-- An `http.Response` as seen by `Domain.Select`: the status code and the
body, the latter represented by what the (external) XML decoder yields for
it — a `selectresponse` or a decode error. -/
structure SResponse where
  statusCode : Nat
  bodyDecode : Except Err SelectResponse

/-- Environment for the paginated executor, giving the outcomes of its two
external calls per issued request: signing (`SignRequestV2`) and the
round trip through the Request Pipe (`conn.Request`).  Both are keyed by the
number of requests already issued; since any failure terminates the loop,
this index is well defined for every consultation. -/
structure SelectEnv where
  sign : Nat → Option Err
  request : Nat → Except Err SResponse

/-- The mutable state of `Domain.Select`'s pagination loop: the query
parameter map `vl`, the held continuation cursor `nextToken`, the items
pushed to the delivery channel so far (in push order — the channel delivers
in push order to the consumer), and the ghost count of issued requests. -/
structure SelectState where
  vl : Values
  nextToken : String
  delivered : List Item
  reqCount : Nat
deriving Repr, DecidableEq

/-- The `for err == nil && !done` loop of `Domain.Select`
(src/sdb/domain.go:100-125), with explicit fuel: `none` means the fuel was
exhausted before the loop exited (the Go loop would still be running).  One
iteration: clear then conditionally set the `NextToken` parameter, sign,
issue the request, decode the body, push the decoded items, and either stop
(empty cursor, or any error) or continue.  The response's `statusCode` is
never consulted — faithfully to the source, which reads `resp` only to dump
and decode it. -/
def selectLoop (env : SelectEnv) : Nat → SelectState → Option (SelectState × Option Err)
  | 0, _ => none
  | fuel + 1, st =>
    let vl1 := (st.vl.del "NextToken")
    let vl2 := if st.nextToken ≠ "" then vl1.set "NextToken" st.nextToken else vl1
    match env.sign st.reqCount with
    | some e => some ({ st with vl := vl2 }, some e)
    | none =>
      match env.request st.reqCount with
      | .error e => some ({ st with vl := vl2, reqCount := st.reqCount + 1 }, some e)
      | .ok resp =>
        match resp.bodyDecode with
        | .error e => some ({ st with vl := vl2, reqCount := st.reqCount + 1 }, some e)
        | .ok x =>
          let st1 : SelectState :=
            { vl := vl2, nextToken := x.nextToken,
              delivered := st.delivered ++ x.items, reqCount := st.reqCount + 1 }
          if x.nextToken = "" then some (st1, none)
          else selectLoop env fuel st1

/-- The `Domain` struct (src/sdb/domain.go:16-20): the immutable identity
relevant to `Select` is the domain name used in the query expression; the
endpoint URL and the owned `Conn` stand behind the `SelectEnv` oracles. -/
structure Domain where
  name : String
deriving Repr, DecidableEq

/-- The query parameter map `Domain.Select` builds before its loop
(src/sdb/domain.go:87-97): `Action=Select`, the assembled
`SelectExpression` (with `" where "` prepended to a non-empty where clause),
and `ConsistentRead=true` iff the consistency flag is set. -/
def Domain.selectParams (d : Domain) (what wher : String) (consist : Bool) : Values :=
  let vl : Values := []
  let vl := vl.set "Action" "Select"
  let w := if wher ≠ "" then " where " ++ wher else wher
  let vl := vl.set "SelectExpression" ("select " ++ what ++ " from " ++ d.name ++ w)
  if consist then vl.set "ConsistentRead" "true" else vl

/-- `Domain.Select` (src/sdb/domain.go:84-127): build the base parameters,
then run the pagination loop from an empty cursor with nothing delivered. -/
def Domain.Select (env : SelectEnv) (d : Domain) (what wher : String) (consist : Bool)
    (fuel : Nat) : Option (SelectState × Option Err) :=
  selectLoop env fuel
    { vl := d.selectParams what wher consist, nextToken := "",
      delivered := [], reqCount := 0 }

/-- The environment induced by a fixed sequence of server pages: signing
always succeeds, the k-th request returns an HTTP 200 whose body decodes to
the k-th page, and any request beyond the script fails (so a theorem whose
run ends without error certifies that no such request was issued). -/
def pagesEnv (pages : List (List Item × String)) : SelectEnv where
  sign := fun _ => none
  request := fun k =>
    match pages[k]? with
    | some p => .ok { statusCode := 200, bodyDecode := .ok { items := p.1, nextToken := p.2 } }
    | none => .error Err.httpFailed

/-- The shape of page sequence in claim C1, structurally: nonempty, every
page before the last carries a non-empty continuation cursor, and the last
page's cursor is the empty string. -/
def lastEmptyOnly : List (List Item × String) → Prop
  | [] => False
  | [p] => p.2 = ""
  | p :: q :: t => p.2 ≠ "" ∧ lastEmptyOnly (q :: t)

/-- Helper: `dial` on an already-connected session is a successful no-op. -/
theorem dial_connected (env : Env) (s : ReusableConn) (c : NetConn)
    (h : s.conn = some c) : ReusableConn.dial env s = (s, none) := by
  unfold ReusableConn.dial
  rw [h]

/-- Helper: an `applyRD` that reports an error leaves the session unchanged. -/
theorem applyRD_err (env : Env) (s s2 : ReusableConn) (t : Time) (e : Err)
    (h : applyRD env s t = (s2, some e)) : s2 = s := by
  unfold applyRD at h
  split at h
  · injection h with h1 _
    exact h1.symm
  · split at h
    · injection h with h1 _
      exact h1.symm
    · injection h with _ h2
      cases h2

/-- Helper: an `applyWD` that reports an error leaves the session unchanged. -/
theorem applyWD_err (env : Env) (s s2 : ReusableConn) (t : Time) (e : Err)
    (h : applyWD env s t = (s2, some e)) : s2 = s := by
  unfold applyWD at h
  split at h
  · injection h with h1 _
    exact h1.symm
  · split at h
    · injection h with h1 _
      exact h1.symm
    · injection h with _ h2
      cases h2

/-- Helper: a successful `applyRD` on a live socket applies the deadline to
that socket and records it, leaving every other field alone. -/
theorem applyRD_ok (env : Env) (s s2 : ReusableConn) (t : Time) (c : NetConn)
    (hc : s.conn = some c) (h : applyRD env s t = (s2, none)) :
    s2 = { s with conn := some { c with rd := some t }, readDeadline := t } := by
  unfold applyRD at h
  split at h
  · rename_i heq
    rw [heq] at hc
    cases hc
  · rename_i c' heq
    rw [heq] at hc
    injection hc with hc1
    subst hc1
    split at h
    · injection h with _ h2
      cases h2
    · injection h with h1 _
      exact h1.symm

/-- Helper: a successful `applyWD` on a live socket applies the deadline to
that socket and records it, leaving every other field alone. -/
theorem applyWD_ok (env : Env) (s s2 : ReusableConn) (t : Time) (c : NetConn)
    (hc : s.conn = some c) (h : applyWD env s t = (s2, none)) :
    s2 = { s with conn := some { c with wd := some t }, writeDeadline := t } := by
  unfold applyWD at h
  split at h
  · rename_i heq
    rw [heq] at hc
    cases hc
  · rename_i c' heq
    rw [heq] at hc
    injection hc with hc1
    subst hc1
    split at h
    · injection h with _ h2
      cases h2
    · injection h with h1 _
      exact h1.symm

/-- Helper: full characterisation of a successful establishing `dial` from a
disconnected session: the factory was invoked exactly once and succeeded,
the recorded deadlines are unchanged, and the stored socket is the factory's
socket with each non-zero recorded deadline applied to it. -/
theorem dial_none_ok (env : Env) (s s1 : ReusableConn) (h0 : s.conn = none)
    (h : ReusableConn.dial env s = (s1, none)) :
    ∃ c0, env.dialer s.dialCount = .ok c0 ∧
      s1.dialCount = s.dialCount + 1 ∧
      s1.readDeadline = s.readDeadline ∧ s1.writeDeadline = s.writeDeadline ∧
      ∃ c, s1.conn = some c ∧ c.id = c0.id ∧
        (s.readDeadline ≠ 0 → c.rd = some s.readDeadline) ∧
        (s.writeDeadline ≠ 0 → c.wd = some s.writeDeadline) := by
  unfold ReusableConn.dial at h
  split at h
  · rename_i c heq
    rw [heq] at h0
    cases h0
  · split at h
    · injection h with _ h2
      cases h2
    · rename_i c0 hd
      refine ⟨c0, hd, ?_⟩
      dsimp only at h
      split at h
      · -- the read-deadline stage reported an error: contradicts overall success
        injection h with _ h2
        cases h2
      · rename_i s2 heq2
        by_cases hr : s.readDeadline = 0
        · rw [if_pos hr] at heq2
          injection heq2 with hA _
          subst hA
          by_cases hw : s.writeDeadline = 0
          · rw [if_pos hw] at h
            injection h with h1 _
            subst h1
            exact ⟨rfl, rfl, rfl, c0, rfl, rfl,
              fun hcon => absurd hr hcon, fun hcon => absurd hw hcon⟩
          · rw [if_neg hw] at h
            have h2 := applyWD_ok env _ s1 s.writeDeadline c0 rfl h
            subst h2
            exact ⟨rfl, rfl, rfl, { c0 with wd := some s.writeDeadline }, rfl, rfl,
              fun hcon => absurd hr hcon, fun _ => rfl⟩
        · rw [if_neg hr] at heq2
          have h2 := applyRD_ok env _ s2 s.readDeadline c0 rfl heq2
          subst h2
          by_cases hw : s.writeDeadline = 0
          · rw [if_pos hw] at h
            injection h with h1 _
            subst h1
            exact ⟨rfl, rfl, rfl, { c0 with rd := some s.readDeadline }, rfl, rfl,
              fun _ => rfl, fun hcon => absurd hw hcon⟩
          · rw [if_neg hw] at h
            have h3 := applyWD_ok env _ s1 s.writeDeadline
              { c0 with rd := some s.readDeadline } rfl h
            subst h3
            exact ⟨rfl, rfl, rfl,
              { c0 with rd := some s.readDeadline, wd := some s.writeDeadline }, rfl, rfl,
              fun _ => rfl, fun _ => rfl⟩

/-- Helper: a successful `dial` always leaves a live socket. -/
theorem dial_ok_conn_some (env : Env) (s s1 : ReusableConn)
    (h : ReusableConn.dial env s = (s1, none)) : ∃ c, s1.conn = some c := by
  cases hc : s.conn with
  | some c =>
    rw [dial_connected env s c hc] at h
    injection h with h1 _
    exact ⟨c, h1 ▸ hc⟩
  | none =>
    obtain ⟨c0, _, _, _, _, c, hcc, _⟩ := dial_none_ok env s s1 hc h
    exact ⟨c, hcc⟩

/-- Helper: `close` always leaves the session with no live socket. -/
theorem close_conn_none (env : Env) (s : ReusableConn) :
    ((ReusableConn.close env s).1).conn = none := by
  unfold ReusableConn.close
  split
  · rename_i heq
    exact heq
  · rfl

/-- Helper: `close` never touches the recorded deadlines. -/
theorem close_fst_deadlines (env : Env) (s : ReusableConn) :
    ((ReusableConn.close env s).1).readDeadline = s.readDeadline
    ∧ ((ReusableConn.close env s).1).writeDeadline = s.writeDeadline := by
  unfold ReusableConn.close
  split
  · exact ⟨rfl, rfl⟩
  · exact ⟨rfl, rfl⟩

/-- Helper: `dial` never changes the recorded deadlines (on the success path
it rewrites them with their own values; on every failure path it leaves them
alone). -/
theorem dial_fst_deadlines (env : Env) (s : ReusableConn) :
    ((ReusableConn.dial env s).1).readDeadline = s.readDeadline
    ∧ ((ReusableConn.dial env s).1).writeDeadline = s.writeDeadline := by
  unfold ReusableConn.dial
  split
  · exact ⟨rfl, rfl⟩
  · split
    · exact ⟨rfl, rfl⟩
    · rename_i c0 hd
      dsimp only
      split
      · rename_i s2 e heq
        by_cases hr : s.readDeadline = 0
        · rw [if_pos hr] at heq
          injection heq with _ h2
          cases h2
        · rw [if_neg hr] at heq
          have h2 := applyRD_err env _ s2 _ e heq
          rw [h2]
          exact ⟨rfl, rfl⟩
      · rename_i s2 heq
        have hs2 : s2.readDeadline = s.readDeadline ∧ s2.writeDeadline = s.writeDeadline := by
          by_cases hr : s.readDeadline = 0
          · rw [if_pos hr] at heq
            injection heq with h1 _
            rw [← h1]
            exact ⟨rfl, rfl⟩
          · rw [if_neg hr] at heq
            have h2 := applyRD_ok env _ s2 _
              c0 rfl heq
            rw [h2]
            exact ⟨rfl, rfl⟩
        by_cases hw : s2.writeDeadline = 0
        · rw [if_pos hw]
          exact hs2
        · rw [if_neg hw]
          cases hres : applyWD env s2 s2.writeDeadline with
          | mk s3 e3 =>
            cases e3 with
            | some e =>
              have h3 := applyWD_err env s2 s3 _ e hres
              rw [h3]
              exact hs2
            | none =>
              obtain ⟨c2, hc2⟩ : ∃ c2, s2.conn = some c2 := by
                by_cases hr : s.readDeadline = 0
                · rw [if_pos hr] at heq
                  injection heq with h1 _
                  exact ⟨c0, by rw [← h1]⟩
                · rw [if_neg hr] at heq
                  have h2 := applyRD_ok env _ s2 _ c0 rfl heq
                  exact ⟨_, by rw [h2]⟩
              have h3 := applyWD_ok env s2 s3 _ c2 hc2 hres
              rw [h3]
              exact ⟨hs2.1, hs2.2 ▸ rfl⟩

/-- Helper: `read` never changes the recorded deadlines. -/
theorem read_fst_deadlines (env : Env) (s : ReusableConn) :
    ((ReusableConn.read env s).1).readDeadline = s.readDeadline
    ∧ ((ReusableConn.read env s).1).writeDeadline = s.writeDeadline := by
  have hp := dial_fst_deadlines env s
  unfold ReusableConn.read
  cases hres : ReusableConn.dial env s with
  | mk s1 e =>
    rw [hres] at hp
    cases e with
    | some e => exact hp
    | none =>
      dsimp only
      cases hc : s1.conn with
      | none => exact hp
      | some c =>
        dsimp only
        cases hr : env.readR c.id with
        | mk n eo =>
          cases eo with
          | some e2 =>
            dsimp only
            have hcl := close_fst_deadlines env s1
            exact ⟨hcl.1.trans hp.1, hcl.2.trans hp.2⟩
          | none => exact hp

/-- Helper: `write` never changes the recorded deadlines. -/
theorem write_fst_deadlines (env : Env) (s : ReusableConn) :
    ((ReusableConn.write env s).1).readDeadline = s.readDeadline
    ∧ ((ReusableConn.write env s).1).writeDeadline = s.writeDeadline := by
  have hp := dial_fst_deadlines env s
  unfold ReusableConn.write
  cases hres : ReusableConn.dial env s with
  | mk s1 e =>
    rw [hres] at hp
    cases e with
    | some e => exact hp
    | none =>
      dsimp only
      cases hc : s1.conn with
      | none => exact hp
      | some c =>
        dsimp only
        cases hr : env.writeR c.id with
        | mk n eo =>
          cases eo with
          | some e2 =>
            dsimp only
            have hcl := close_fst_deadlines env s1
            exact ⟨hcl.1.trans hp.1, hcl.2.trans hp.2⟩
          | none => exact hp

/-- C4: deadlines, once successfully set by the caller, survive socket
replacement.  (i)/(ii): a successful `SetReadDeadline`/`SetWriteDeadline`
records the deadline in the session.  (iii): every establishing `dial` that
returns success leaves the recorded deadlines unchanged and has applied each
non-zero recorded deadline to the newly established socket before returning
(a recorded zero deadline means "no deadline", which a fresh socket already
has, so nothing is applied).  (iv): `Read`, `Write` and `Close` never change
the recorded deadlines, so the deadline a caller set is still the one
reapplied by the redial after a transport failure discards the socket. -/
theorem deadlines_persist_across_redials (env : Env) :
    (∀ s s1 t, ReusableConn.SetReadDeadline env s t = (s1, none) → s1.readDeadline = t)
    ∧ (∀ s s1 t, ReusableConn.SetWriteDeadline env s t = (s1, none) → s1.writeDeadline = t)
    ∧ (∀ s s1, s.conn = none → ReusableConn.dial env s = (s1, none) →
        s1.readDeadline = s.readDeadline ∧ s1.writeDeadline = s.writeDeadline ∧
        ∀ c, s1.conn = some c →
          (s.readDeadline ≠ 0 → c.rd = some s.readDeadline) ∧
          (s.writeDeadline ≠ 0 → c.wd = some s.writeDeadline))
    ∧ (∀ s, ((ReusableConn.Read env s).1).readDeadline = s.readDeadline
        ∧ ((ReusableConn.Read env s).1).writeDeadline = s.writeDeadline
        ∧ ((ReusableConn.Write env s).1).readDeadline = s.readDeadline
        ∧ ((ReusableConn.Write env s).1).writeDeadline = s.writeDeadline
        ∧ ((ReusableConn.Close env s).1).readDeadline = s.readDeadline
        ∧ ((ReusableConn.Close env s).1).writeDeadline = s.writeDeadline) := by
  refine ⟨?_, ?_, ?_, ?_⟩
  · intro s s1 t h
    unfold ReusableConn.SetReadDeadline ReusableConn.setReadDeadline at h
    split at h
    · injection h with _ h2
      cases h2
    · rename_i sA heq
      obtain ⟨c, hc⟩ := dial_ok_conn_some env s sA heq
      have h2 := applyRD_ok env sA s1 t c hc h
      rw [h2]
  · intro s s1 t h
    unfold ReusableConn.SetWriteDeadline ReusableConn.setWriteDeadline at h
    split at h
    · injection h with _ h2
      cases h2
    · rename_i sA heq
      obtain ⟨c, hc⟩ := dial_ok_conn_some env s sA heq
      have h2 := applyWD_ok env sA s1 t c hc h
      rw [h2]
  · intro s s1 h0 h
    obtain ⟨c0, _, _, hrd, hwd, c, hcc, _, hR, hW⟩ := dial_none_ok env s s1 h0 h
    refine ⟨hrd, hwd, ?_⟩
    intro c' hc'
    rw [hcc] at hc'
    injection hc' with h1
    subst h1
    exact ⟨hR, hW⟩
  · intro s
    obtain ⟨hr1, hr2⟩ := read_fst_deadlines env s
    obtain ⟨hw1, hw2⟩ := write_fst_deadlines env s
    obtain ⟨hc1, hc2⟩ := close_fst_deadlines env s
    exact ⟨hr1, hr2, hw1, hw2, hc1, hc2⟩

/-- C5: a `Read` or `Write` whose underlying socket operation fails closes
and discards the live socket (so the next operation must redial), yet still
returns to the caller the `(n, err)` of that single underlying call — the
operation is not retried, and the `close()` error is swallowed as in the
source. -/
theorem read_write_discard_on_error (env : Env) (s sd : ReusableConn) (c : NetConn)
    (hd : ReusableConn.dial env s = (sd, none)) (hc : sd.conn = some c) :
    (∀ n e, env.readR c.id = (n, some e) →
      ReusableConn.Read env s = ((ReusableConn.close env sd).1, (n, some e))
      ∧ ((ReusableConn.close env sd).1).conn = none)
    ∧ (∀ n e, env.writeR c.id = (n, some e) →
      ReusableConn.Write env s = ((ReusableConn.close env sd).1, (n, some e))
      ∧ ((ReusableConn.close env sd).1).conn = none) := by
  constructor
  · intro n e hr
    refine ⟨?_, close_conn_none env sd⟩
    unfold ReusableConn.Read ReusableConn.read
    rw [hd]
    dsimp only
    rw [hc]
    dsimp only
    rw [hr]
  · intro n e hr
    refine ⟨?_, close_conn_none env sd⟩
    unfold ReusableConn.Write ReusableConn.write
    rw [hd]
    dsimp only
    rw [hc]
    dsimp only
    rw [hr]

/-- C6: `Dial` is idempotent.  On a session that already holds a live socket
it is a successful no-op that leaves the state (hence the factory invocation
count) unchanged; and after a successful establishing `Dial` the second
`Dial` is such a no-op, so two consecutive `Dial` calls with no intervening
failure invoke the factory exactly once. -/
theorem dial_idempotent (env : Env) (s : ReusableConn) :
    (∀ c, s.conn = some c → ReusableConn.Dial env s = (s, none))
    ∧ (∀ s1, s.conn = none → ReusableConn.Dial env s = (s1, none) →
        ReusableConn.Dial env s1 = (s1, none) ∧ s1.dialCount = s.dialCount + 1) := by
  constructor
  · intro c hc
    exact dial_connected env s c hc
  · intro s1 h0 h
    obtain ⟨c0, _, hcount, _, _, c, hcc, _, _, _⟩ := dial_none_ok env s s1 h0 h
    exact ⟨dial_connected env s1 c hcc, hcount⟩

/-- C7: if during an establishing `dial` the factory succeeds but reapplying
a previously-set (non-zero) deadline to the fresh socket fails, `dial`
returns that reapply error while the freshly dialed socket remains stored —
the factory was invoked exactly once and the next `dial` is a successful
no-op (no redial).  Both failure points are covered: the read-deadline
reapply, and the write-deadline reapply (after the read one was skipped or
succeeded). -/
theorem dial_deadline_failure_keeps_socket (env : Env) (s : ReusableConn) (c0 : NetConn)
    (h0 : s.conn = none) (hd : env.dialer s.dialCount = .ok c0) :
    (∀ e, s.readDeadline ≠ 0 → env.setRD c0.id s.readDeadline = some e →
      ∃ s1, ReusableConn.dial env s = (s1, some e) ∧ s1.conn = some c0 ∧
        s1.dialCount = s.dialCount + 1 ∧ ReusableConn.dial env s1 = (s1, none))
    ∧ (∀ e, (s.readDeadline = 0 ∨ env.setRD c0.id s.readDeadline = none) →
        s.writeDeadline ≠ 0 → env.setWD c0.id s.writeDeadline = some e →
        ∃ s1 c, ReusableConn.dial env s = (s1, some e) ∧ s1.conn = some c ∧ c.id = c0.id ∧
          s1.dialCount = s.dialCount + 1 ∧ ReusableConn.dial env s1 = (s1, none)) := by
  constructor
  · intro e hr hsr
    refine ⟨{ conn := some c0, readDeadline := s.readDeadline,
              writeDeadline := s.writeDeadline, dialCount := s.dialCount + 1 },
            ?_, rfl, rfl, dial_connected env _ c0 rfl⟩
    unfold ReusableConn.dial
    rw [h0]
    dsimp only
    rw [hd]
    dsimp only
    rw [if_neg hr]
    unfold applyRD
    dsimp only
    rw [hsr]
  · intro e hro hw hsw
    by_cases hr : s.readDeadline = 0
    · refine ⟨{ conn := some c0, readDeadline := s.readDeadline,
                writeDeadline := s.writeDeadline, dialCount := s.dialCount + 1 },
              c0, ?_, rfl, rfl, rfl, dial_connected env _ c0 rfl⟩
      unfold ReusableConn.dial
      rw [h0]
      dsimp only
      rw [hd]
      dsimp only
      rw [if_pos hr]
      dsimp only
      rw [if_neg hw]
      unfold applyWD
      dsimp only
      rw [hsw]
    · have hsr : env.setRD c0.id s.readDeadline = none := by
        cases hro with
        | inl h => exact absurd h hr
        | inr h => exact h
      refine ⟨{ conn := some { c0 with rd := some s.readDeadline },
                readDeadline := s.readDeadline,
                writeDeadline := s.writeDeadline, dialCount := s.dialCount + 1 },
              { c0 with rd := some s.readDeadline },
              ?_, rfl, rfl, rfl, dial_connected env _ _ rfl⟩
      unfold ReusableConn.dial
      rw [h0]
      dsimp only
      rw [hd]
      dsimp only
      rw [if_neg hr]
      unfold applyRD
      dsimp only
      rw [hsr]
      dsimp only
      rw [if_neg hw]
      unfold applyWD
      dsimp only
      rw [hsw]

/-- C9: closing a session that holds no live socket (in particular, one that
was just closed) succeeds with no error and leaves the session without a
live socket; consequently the second of two consecutive `Close` calls never
returns an error. -/
theorem close_of_closed_ok (env : Env) :
    (∀ s : ReusableConn, s.conn = none → ReusableConn.Close env s = (s, none))
    ∧ (∀ s : ReusableConn, ((ReusableConn.Close env s).1).conn = none)
    ∧ (∀ s : ReusableConn,
        ReusableConn.Close env ((ReusableConn.Close env s).1)
          = ((ReusableConn.Close env s).1, none)) := by
  have hA : ∀ s : ReusableConn, s.conn = none → ReusableConn.Close env s = (s, none) := by
    intro s h0
    unfold ReusableConn.Close ReusableConn.close
    rw [h0]
  exact ⟨hA, fun s => close_conn_none env s, fun s => hA _ (close_conn_none env s)⟩

/-- C10: `LocalAddr` returns exactly what `RemoteAddr` returns — the live
socket's remote address (the source's `LocalAddr` body calls
`conn.RemoteAddr()`), and the nil address when no socket is live; neither
observation dials (both are pure reads of the session, as embedded). -/
theorem localAddr_eq_remoteAddr (env : Env) (s : ReusableConn) :
    ReusableConn.LocalAddr env s = ReusableConn.RemoteAddr env s
    ∧ (s.conn = none → ReusableConn.LocalAddr env s = none)
    ∧ (∀ c, s.conn = some c → ReusableConn.LocalAddr env s = env.raddr c.id) := by
  refine ⟨rfl, ?_, ?_⟩
  · intro h0
    unfold ReusableConn.LocalAddr
    rw [h0]
  · intro c hc
    unfold ReusableConn.LocalAddr
    rw [hc]

/-- A concrete environment used by the witnesses: the factory always yields
socket `k` on its k-th invocation; deadline application fails only on
sockets 1 (read) and 2 (write); reads and writes fail only on socket 0. -/
def wEnv : Env where
  dialer := fun k => .ok { id := k }
  setRD := fun i _ => if i = 1 then some Err.deadlineFailed else none
  setWD := fun i _ => if i = 2 then some Err.deadlineFailed else none
  readR := fun i => if i = 0 then (0, some Err.readFailed) else (4, none)
  writeR := fun i => if i = 0 then (0, some Err.writeFailed) else (4, none)
  closeE := fun _ => none
  raddr := fun i => some (100 + i)
  parseResp := fun _ => .ok 7

/-- Concrete disconnected session with both deadlines recorded. -/
def s4w : ReusableConn :=
  { conn := none, readDeadline := 5, writeDeadline := 7, dialCount := 3 }

/-- The socket `wEnv` yields for `s4w`'s dial, after deadline application. -/
def c4x : NetConn := { id := 3, rd := some 5, wd := some 7 }

/-- The session resulting from `s4w`'s successful dial under `wEnv`. -/
def s4x : ReusableConn :=
  { conn := some c4x, readDeadline := 5, writeDeadline := 7, dialCount := 4 }

/-- Witness for C4: a concrete establishing dial with recorded deadlines 5
and 7 stores a socket carrying exactly those deadlines. -/
theorem deadlines_persist_witness :
    s4w.conn = none
    ∧ ReusableConn.dial wEnv s4w = (s4x, none)
    ∧ s4w.readDeadline ≠ 0 ∧ s4w.writeDeadline ≠ 0
    ∧ c4x.rd = some s4w.readDeadline ∧ c4x.wd = some s4w.writeDeadline := by
  have h3 := (deadlines_persist_across_redials wEnv).2.2.1 s4w s4x rfl (by decide)
  have h4 := h3.2.2 c4x (by decide)
  exact ⟨rfl, by decide, by decide, by decide, h4.1 (by decide), h4.2 (by decide)⟩

/-- The session established from a fresh connection under `wEnv` (socket 0). -/
def c5w : NetConn := { id := 0 }

/-- The fresh session after its first successful dial under `wEnv`. -/
def s5d : ReusableConn :=
  { conn := some c5w, readDeadline := 0, writeDeadline := 0, dialCount := 1 }

/-- The discarded session left after a failed read/write on socket 0. -/
def s5after : ReusableConn :=
  { conn := none, readDeadline := 0, writeDeadline := 0, dialCount := 1 }

/-- Witness for C5: under `wEnv` a fresh session's `Read` dials socket 0,
whose read fails, so the call returns that error and leaves no live socket. -/
theorem read_write_discard_witness :
    ReusableConn.dial wEnv NewReusableConnection = (s5d, none)
    ∧ s5d.conn = some c5w
    ∧ wEnv.readR c5w.id = (0, some Err.readFailed)
    ∧ ReusableConn.Read wEnv NewReusableConnection = (s5after, (0, some Err.readFailed))
    ∧ s5after.conn = none := by
  have h := (read_write_discard_on_error wEnv NewReusableConnection s5d c5w
    (by decide) rfl).1 0 Err.readFailed (by decide)
  exact ⟨by decide, rfl, by decide, h.1, h.2⟩

/-- Witness for C6: two consecutive `Dial`s on a fresh session under `wEnv`:
the first establishes (one factory invocation), the second is a no-op. -/
theorem dial_idempotent_witness :
    NewReusableConnection.conn = none
    ∧ ReusableConn.Dial wEnv NewReusableConnection = (s5d, none)
    ∧ ReusableConn.Dial wEnv s5d = (s5d, none)
    ∧ s5d.dialCount = NewReusableConnection.dialCount + 1 := by
  have h := (dial_idempotent wEnv NewReusableConnection).2 s5d rfl (by decide)
  exact ⟨rfl, by decide, h.1, h.2⟩

/-- Concrete disconnected session whose redial hits socket 1, on which
`wEnv`'s read-deadline application fails. -/
def s7w : ReusableConn :=
  { conn := none, readDeadline := 3, writeDeadline := 0, dialCount := 1 }

/-- The socket `wEnv` yields for `s7w`'s dial (deadline never applied). -/
def c7w : NetConn := { id := 1 }

/-- Witness for C7: a dial whose factory succeeds (socket 1) but whose
read-deadline reapplication fails returns the reapply error with the fresh
socket stored, and the next dial is a no-op. -/
theorem dial_deadline_failure_witness :
    s7w.conn = none
    ∧ wEnv.dialer s7w.dialCount = .ok c7w
    ∧ s7w.readDeadline ≠ 0
    ∧ wEnv.setRD c7w.id s7w.readDeadline = some Err.deadlineFailed
    ∧ ∃ s1, ReusableConn.dial wEnv s7w = (s1, some Err.deadlineFailed) ∧ s1.conn = some c7w
        ∧ s1.dialCount = s7w.dialCount + 1 ∧ ReusableConn.dial wEnv s1 = (s1, none) := by
  refine ⟨rfl, rfl, by decide, by decide, ?_⟩
  exact (dial_deadline_failure_keeps_socket wEnv s7w c7w rfl rfl).1
    Err.deadlineFailed (by decide) (by decide)

/-- Witness for C9: closing a fresh (never-connected) session returns no
error, and a second close after closing an established session returns no
error either. -/
theorem close_of_closed_witness :
    NewReusableConnection.conn = none
    ∧ ReusableConn.Close wEnv NewReusableConnection = (NewReusableConnection, none)
    ∧ ((ReusableConn.Close wEnv s5d).1).conn = none
    ∧ ReusableConn.Close wEnv ((ReusableConn.Close wEnv s5d).1)
        = ((ReusableConn.Close wEnv s5d).1, none) := by
  obtain ⟨hA, hB, hC⟩ := close_of_closed_ok wEnv
  exact ⟨rfl, hA NewReusableConnection rfl, hB s5d, hC s5d⟩

/-- Witness for C10: on a connected session `LocalAddr` equals `RemoteAddr`
and yields socket 0's remote address; on a fresh session it yields the nil
address. -/
theorem localAddr_eq_remoteAddr_witness :
    ReusableConn.LocalAddr wEnv s5d = ReusableConn.RemoteAddr wEnv s5d
    ∧ ReusableConn.LocalAddr wEnv NewReusableConnection = none
    ∧ ReusableConn.LocalAddr wEnv s5d = some 100 := by
  obtain ⟨h1, _, h3⟩ := localAddr_eq_remoteAddr wEnv s5d
  obtain ⟨_, h2, _⟩ := localAddr_eq_remoteAddr wEnv NewReusableConnection
  exact ⟨h1, h2 rfl, h3 c5w rfl⟩

/-- Helper: a successful `Conn.dial` always leaves a protocol handle bound. -/
theorem conn_dial_c_some (env : Env) (s s1 : Conn) (h : Conn.dial env s = (s1, none)) :
    ∃ h0, s1.c = some h0 := by
  unfold Conn.dial at h
  split at h
  · rename_i cc heq
    injection h with h1 _
    exact ⟨cc, h1 ▸ heq⟩
  · split at h
    · injection h with _ h2
      cases h2
    · injection h with h1 _
      exact ⟨{ id := s.ccCount }, by rw [← h1]⟩

/-- Helper: `ClientConn.Write` can only update the handle's error latches;
the handle's construction tag is preserved. -/
theorem clientConn_write_id (env : Env) (uc uc2 : ReusableConn) (cc cc2 : ClientConn)
    (req : HttpRequest) (eo : Option Err)
    (h : ClientConn.Write env uc cc req = (uc2, cc2, eo)) : cc2.id = cc.id := by
  unfold ClientConn.Write at h
  (repeat' split at h) <;> (injection h with h1 h2; injection h2 with h2a h2b; rw [← h2a])

/-- Helper: `ClientConn.Read` can only update the handle's error latches;
the handle's construction tag is preserved. -/
theorem clientConn_read_id (env : Env) (uc : ReusableConn) (cc : ClientConn) :
    ((ClientConn.Read env uc cc).2.1).id = cc.id := by
  unfold ClientConn.Read
  (repeat' split) <;> rfl

/-- C3 (amended): the protocol handle is never cleared and never rebuilt.
Once a handle exists, every `Conn.Request` leaves a handle with the same
construction tag bound (only its stdlib error latches can change) and
performs no new construction; and once the handle carries a latched error —
which is what a write/read failure leaves behind, after the Resilient
Socket has already discarded its dead socket — every subsequent request
fails fast with exactly that latched error while leaving the whole state,
in particular the Resilient Socket, untouched: no redial, no replacement
socket, no rebuilt handle.  The pipe wedges permanently instead of
clearing its handle and rebuilding. -/
theorem conn_request_preserves_handle (env : Env) (s : Conn) (req : HttpRequest)
    (h : ClientConn) (hh : s.c = some h) :
    (∀ cc, ((Conn.Request env s req).1).c = some cc → cc.id = h.id)
    ∧ ((Conn.Request env s req).1).c ≠ none
    ∧ ((Conn.Request env s req).1).ccCount = s.ccCount
    ∧ (∀ e, h.re = some e →
        ((Conn.Request env s req).1).uc = s.uc
        ∧ ((Conn.Request env s req).1).c = some h
        ∧ (Conn.Request env s req).2.2 = .error e)
    ∧ (∀ e, h.re = none → h.we = some e →
        ((Conn.Request env s req).1).uc = s.uc
        ∧ ((Conn.Request env s req).1).c = some h
        ∧ (Conn.Request env s req).2.2 = .error e) := by
  have hdial : Conn.dial env s = (s, none) := by
    unfold Conn.dial
    rw [hh]
  unfold Conn.Request
  rw [hdial]
  dsimp only
  rw [hh]
  dsimp only
  refine ⟨?_, ?_, ?_, ?_, ?_⟩
  · (repeat' split) <;>
      (intro cc hcc
       injection hcc with hcc1
       subst hcc1
       first
         | exact clientConn_write_id env s.uc _ h _ _ _ (by assumption)
         | exact (clientConn_read_id env _ _).trans
             (clientConn_write_id env s.uc _ h _ _ _ (by assumption)))
  · (repeat' split) <;> simp
  · (repeat' split) <;> rfl
  · intro e hre
    unfold ClientConn.Write
    rw [hre]
    dsimp only
    exact ⟨rfl, rfl, rfl⟩
  · intro e hre hwe
    unfold ClientConn.Write
    rw [hre]
    dsimp only
    rw [hwe]
    dsimp only
    exact ⟨rfl, rfl, rfl⟩

/-- The environment of the C3 counterexample: every factory invocation
succeeds (socket k on the k-th call), writes fail only on socket 0, reads
and everything else succeed. -/
def envC3 : Env where
  dialer := fun k => .ok { id := k }
  setRD := fun _ _ => none
  setWD := fun _ _ => none
  readR := fun _ => (1, none)
  writeR := fun i => if i = 0 then (0, some Err.writeFailed) else (5, none)
  closeE := fun _ => none
  raddr := fun i => some i
  parseResp := fun _ => .ok 0

/-- A request with no query string and no form data. -/
def reqEmpty : HttpRequest := { rawQuery := "", form := none }

/-- State after the first request of the C3 counterexample: the write on
socket 0 failed, so the Resilient Socket discarded the socket and the
handle latched the write error (`we`). -/
def c3s1 : Conn := (Conn.Request envC3 NewConn reqEmpty).1

/-- State after the second request of the C3 counterexample: the latched
handle failed fast, so nothing changed. -/
def c3s2 : Conn := (Conn.Request envC3 c3s1 reqEmpty).1

/-- Counterexample to C3 as stated.  The first request's write failure makes
the Resilient Socket discard its dead socket (`conn = none`, a "read/write
failure" in the claim's words), after which the claim requires the pipe's
handle to have been cleared (set to nil) so that the next request rebuilds
a new handle bound to a new socket.  Neither happens: the handle is still
bound — with the write error latched inside it, as the pre-Go1 stdlib
handle does — and the second request returns that latched error while
rebuilding nothing and never touching the Resilient Socket: the factory is
not reinvoked (dial count still 1), no replacement socket appears (`conn`
still `none`), the handle tag is still 0 and the construction count is
still 1.  The pipe wedges instead of clearing and rebuilding. -/
theorem conn_handle_never_cleared_cex :
    c3s1.uc.conn = none
    ∧ c3s1.uc.dialCount = 1
    ∧ c3s1.c = some { id := 0, re := none, we := some Err.writeFailed }
    ∧ c3s1.ccCount = 1
    ∧ (Conn.Request envC3 c3s1 reqEmpty).2.2 = .error Err.writeFailed
    ∧ c3s2.uc.conn = none
    ∧ c3s2.uc.dialCount = 1
    ∧ c3s2.c = some { id := 0, re := none, we := some Err.writeFailed }
    ∧ c3s2.ccCount = 1 := by
  exact ⟨rfl, rfl, rfl, rfl, rfl, rfl, rfl, rfl, rfl⟩

/-- A `Conn` that has established its handle over socket 0 of `wEnv`. -/
def connEstablished : Conn := { uc := s5d, c := some { id := 0 }, ccCount := 1 }

/-- A handle wedged by a latched write error. -/
def ccLatched : ClientConn := { id := 0, re := none, we := some Err.writeFailed }

/-- A `Conn` whose Resilient Socket has discarded its dead socket and whose
handle carries the latched write error of the failure that killed it. -/
def connWedged : Conn := { uc := s5after, c := some ccLatched, ccCount := 1 }

/-- Witness for the amended C3: a concrete request on a `Conn` holding the
latched handle fails fast with the latched error, leaves the same handle
bound (not cleared), constructs nothing, and leaves the Resilient Socket
untouched. -/
theorem conn_request_preserves_handle_witness :
    connWedged.c = some ccLatched
    ∧ ccLatched.re = none
    ∧ ccLatched.we = some Err.writeFailed
    ∧ ((Conn.Request wEnv connWedged reqEmpty).1).c = some ccLatched
    ∧ ((Conn.Request wEnv connWedged reqEmpty).1).c ≠ none
    ∧ ((Conn.Request wEnv connWedged reqEmpty).1).ccCount = connWedged.ccCount
    ∧ ((Conn.Request wEnv connWedged reqEmpty).1).uc = connWedged.uc
    ∧ (Conn.Request wEnv connWedged reqEmpty).2.2 = .error Err.writeFailed := by
  obtain ⟨h1, h2, h3, h4, h5⟩ :=
    conn_request_preserves_handle wEnv connWedged reqEmpty ccLatched rfl
  obtain ⟨ha, hb, hc⟩ := h5 Err.writeFailed rfl rfl
  exact ⟨rfl, rfl, rfl, hb, h2, h3, ha, hc⟩

/-- C8: when the pipe's dial succeeds and the request carries form data, the
request transmitted (returned mutated, as the Go code mutates it through the
caller's pointer) has the encoded data appended to its query string — with a
`&` separator exactly when a query string was already present — and its form
data cleared; this holds regardless of the write/read outcomes, which happen
after the merge. -/
theorem request_merges_query (env : Env) (s s1 : Conn) (req : HttpRequest) (vs : Values)
    (hform : req.form = some vs) (hdial : Conn.dial env s = (s1, none)) :
    (Conn.Request env s req).2.1 =
      { rawQuery := (if req.rawQuery ≠ "" then req.rawQuery ++ "&" else req.rawQuery)
          ++ Values.encode vs,
        form := none } := by
  obtain ⟨h0, hc⟩ := conn_dial_c_some env s s1 hdial
  unfold Conn.Request
  rw [hdial]
  dsimp only
  rw [hform]
  dsimp only
  rw [hc]
  dsimp only
  (repeat' split) <;> rfl

/-- The C8 witness request: existing query string plus form data. -/
def req8 : HttpRequest := { rawQuery := "a=1", form := some [("b", "2")] }

/-- Witness for C8: sending a request with query `a=1` and form data `b=2`
through a fresh pipe under `wEnv` yields the transmitted query `a=1&b=2`
with the form cleared. -/
theorem request_merges_query_witness :
    req8.form = some [("b", "2")]
    ∧ Conn.dial wEnv NewConn = (connEstablished, none)
    ∧ (Conn.Request wEnv NewConn req8).2.1 = { rawQuery := "a=1&b=2", form := none } := by
  have h := request_merges_query wEnv NewConn connEstablished req8 [("b", "2")] rfl (by decide)
  exact ⟨rfl, by decide, h.trans (by decide)⟩

/-- Helper: reading off the head of a dropped suffix. -/
theorem drop_eq_cons_getElem {α : Type} (pages : List α) (n : Nat) (p : α) (t : List α)
    (h : pages.drop n = p :: t) : pages[n]? = some p ∧ pages.drop (n + 1) = t := by
  induction pages generalizing n with
  | nil => simp at h
  | cons a rest ih =>
    cases n with
    | zero =>
      simp only [List.drop_zero] at h
      injection h with h1 h2
      subst h1
      subst h2
      simp
    | succ m =>
      simp only [List.drop_succ_cons] at h
      simpa using ih m h

/-- Helper: one iteration of the pagination loop under a page script, when
the script still has a page for the current request index: the page's items
are pushed, its cursor becomes the held cursor, and the loop stops exactly
when that cursor is empty. -/
theorem selectLoop_succ_page (pages : List (List Item × String)) (st : SelectState)
    (f : Nat) (p : List Item × String) (hget : pages[st.reqCount]? = some p) :
    ∃ vl2, selectLoop (pagesEnv pages) (f + 1) st =
      if p.2 = "" then
        some ({ vl := vl2, nextToken := p.2,
                delivered := st.delivered ++ p.1, reqCount := st.reqCount + 1 }, none)
      else selectLoop (pagesEnv pages) f
        { vl := vl2, nextToken := p.2,
          delivered := st.delivered ++ p.1, reqCount := st.reqCount + 1 } := by
  refine ⟨if st.nextToken ≠ "" then (st.vl.del "NextToken").set "NextToken" st.nextToken
          else st.vl.del "NextToken", ?_⟩
  simp only [selectLoop, pagesEnv, hget]

/-- Helper: running the pagination loop over the remaining suffix of a page
script in which only the final page's cursor is empty: every remaining page
is requested exactly once and all its items are delivered in order. -/
theorem selectLoop_pagesEnv_run (pages : List (List Item × String)) :
    ∀ (rest : List (List Item × String)) (st : SelectState) (fuel : Nat),
      pages.drop st.reqCount = rest →
      lastEmptyOnly rest →
      rest.length ≤ fuel →
      ∃ vlf, selectLoop (pagesEnv pages) fuel st =
        some ({ vl := vlf, nextToken := "",
                delivered := st.delivered ++ (rest.map Prod.fst).flatten,
                reqCount := st.reqCount + rest.length }, none) := by
  intro rest
  induction rest with
  | nil =>
    intro st fuel _ hC _
    cases hC
  | cons p t ih =>
    intro st fuel hdrop hC hfuel
    obtain ⟨hget, hdrop1⟩ := drop_eq_cons_getElem pages st.reqCount p t hdrop
    cases fuel with
    | zero => simp at hfuel
    | succ f =>
      obtain ⟨vl2, hstep⟩ := selectLoop_succ_page pages st f p hget
      cases t with
      | nil =>
        have hp2 : p.2 = "" := hC
        refine ⟨vl2, ?_⟩
        rw [hstep, if_pos hp2]
        simp [hp2]
      | cons q t' =>
        obtain ⟨hp2, hC'⟩ := hC
        have hfuel1 : (q :: t').length ≤ f := by
          simp only [List.length_cons] at hfuel ⊢
          omega
        obtain ⟨vlf, hrec⟩ := ih
          { vl := vl2, nextToken := p.2,
            delivered := st.delivered ++ p.1, reqCount := st.reqCount + 1 }
          f hdrop1 hC' hfuel1
        refine ⟨vlf, ?_⟩
        rw [hstep, if_neg hp2, hrec]
        simp only [Option.some.injEq, Prod.mk.injEq, SelectState.mk.injEq,
          List.map_cons, List.flatten_cons, List.append_assoc,
          List.length_cons, true_and, and_true]
        omega

/-- C1: pagination terminates after exactly one request per page.  For every
page script in which only the final page's continuation cursor is empty, and
any fuel at least the number of pages, `Domain.Select` returns successfully
having issued exactly one request per page (the script's oracle fails any
request beyond it, so the successful run also certifies that no request
followed the empty cursor), holding an empty final cursor, and having
delivered the items of every page in server order within each page and in
page order across pages. -/
theorem select_pagination_termination (d : Domain) (what wher : String) (consist : Bool)
    (pages : List (List Item × String)) (hp : lastEmptyOnly pages)
    (fuel : Nat) (hfuel : pages.length ≤ fuel) :
    ∃ stf, Domain.Select (pagesEnv pages) d what wher consist fuel = some (stf, none)
      ∧ stf.reqCount = pages.length
      ∧ stf.delivered = (pages.map Prod.fst).flatten
      ∧ stf.nextToken = "" := by
  obtain ⟨vlf, h⟩ := selectLoop_pagesEnv_run pages pages
    { vl := d.selectParams what wher consist, nextToken := "",
      delivered := [], reqCount := 0 }
    fuel (by simp) hp hfuel
  exact ⟨_, h, by simp, rfl, rfl⟩

/-- The two-page script of the C1 witness. -/
def c1pages : List (List Item × String) := [([1, 2], "t"), ([3], "")]

/-- The domain used by the executor witnesses. -/
def domW : Domain := { name := "files" }

/-- Witness for C1: a concrete two-page script (cursors `"t"` then empty)
makes the executor issue exactly two requests and deliver `[1, 2, 3]`. -/
theorem select_pagination_termination_witness :
    lastEmptyOnly c1pages
    ∧ c1pages.length ≤ 2
    ∧ ∃ stf, Domain.Select (pagesEnv c1pages) domW "a" "" false 2 = some (stf, none)
      ∧ stf.reqCount = 2 ∧ stf.delivered = [1, 2, 3] ∧ stf.nextToken = "" := by
  have hp : lastEmptyOnly c1pages := ⟨by decide, rfl⟩
  obtain ⟨stf, h1, h2, h3, h4⟩ :=
    select_pagination_termination domW "a" "" false c1pages hp 2 (by decide)
  exact ⟨hp, by decide, stf, h1, h2, h3.trans (by decide), h4⟩

/-- The C2 failing input: request 0 yields a 200 page with items `[10, 11]`
and cursor `"T1"`; request 1 yields an HTTP 400 failure status whose SDB
error body XML-decodes (leniently, as Go's decoder does on an error
document) into an empty `selectresponse` — no items, empty cursor. -/
def c2env : SelectEnv where
  sign := fun _ => none
  request := fun k =>
    match k with
    | 0 => .ok { statusCode := 200, bodyDecode := .ok { items := [10, 11], nextToken := "T1" } }
    | 1 => .ok { statusCode := 400, bodyDecode := .ok { items := [], nextToken := "" } }
    | _ => .error Err.httpFailed

/-- C2, evaluated at the failing input: the executor never consults the
response status, so on the 400 response it decodes the error body, treats it
as a final empty page, and returns with NO error after delivering only page
1's items — whereas the claim (and spec §4.3 step 3) requires the status to
be checked and that status's error returned.  The items of page 1 are
delivered and no third request is issued, but the failure status is silently
swallowed. -/
theorem select_status_unchecked_eval :
    ∃ stf, Domain.Select c2env domW "a" "" false 3 = some (stf, none)
      ∧ stf.reqCount = 2
      ∧ stf.delivered = [10, 11] := by
  exact ⟨_, rfl, rfl, rfl⟩
